import Mathlib

/-!
# The QKD example engine (`example-engine/example_engine.c`)

A shallow embedding of the DH method that the example engine installs:
`shared_secret_nr_bits`, `fatal`, `report_progress`, `i_am_server`,
`dh_generate_key` and `dh_compute_key`.

* The two file-scope switches are the fields of `Config`.
* `qkd_api.h` is not part of the sources: its constants and the provider entry
  point `QKD_OPEN` are the fields of `QkdApi`, a parameter of the embedding.
* Side effects (standard output, provider calls, `exit`) are explicit: a `World`
  carries the trace of events and the provider's state, and an `Outcome` says
  whether a function returned to its caller or terminated the process.
-/

namespace ExampleEngine

/-! ## Configuration switches -/

/-- The file-scope switches `return_fixed_key_for_testing` and
`running_on_simulaqron`. -/
structure Config where
  return_fixed_key_for_testing : Bool
  running_on_simulaqron : Bool
deriving DecidableEq, Repr

/-- The values the source file gives the switches: `true` and `false`. -/
def Config.initial : Config :=
  { return_fixed_key_for_testing := true, running_on_simulaqron := false }

/-! ## OpenSSL data -/

/-- An OpenSSL `BIGNUM`, by its big-endian octets. -/
abbrev BIGNUM := List Nat

/-- The fields of an OpenSSL `DH` the method could touch; `none` is a NULL
pointer. -/
structure DH where
  p : Option BIGNUM
  pub_key : Option BIGNUM
  priv_key : Option BIGNUM
deriving DecidableEq, Repr

/-! ## The types of `qkd_api.h` -/

/-- The octets of a `key_handle_t`. -/
abbrev key_handle_t := List Nat

/-- The record `ip_address_t`. -/
structure ip_address_t where
  length : Nat
  address : List Nat
deriving DecidableEq, Repr

/-- The record `qos_t`. -/
structure qos_t where
  requested_length : Nat
  max_bps : Nat
  priority : Nat
  timeout : Nat
deriving DecidableEq, Repr

/-- What `qkd_api.h` declares and the source uses: the sizes of the two arrays,
the code `QKD_RC_SUCCESS`, and the provider's `QKD_OPEN`, which answers with a
return code and the contents of the key handle after the call, and moves the
provider from one state to the next. -/
structure QkdApi (P : Type) where
  KEY_HANDLE_SIZE : Nat
  IP_ADDR_MAX_LEN : Nat
  QKD_RC_SUCCESS : Int
  QKD_OPEN : P → ip_address_t → qos_t → key_handle_t → Int × key_handle_t × P

/-! ## Events, worlds and outcomes -/

/-- An argument of a `printf` call: a C string, or a `va_list` handed over as
it is (what `fatal` does). -/
inductive PrintfArg where
  | str (s : String)
  | va_list (args : List String)
deriving DecidableEq, Repr

/-- What a run does to the outside: a `printf` call, or a call of the QKD
provider. A `qkd_open` event records the three arguments, the return code and
the key handle after the call. `QKD_CONNECT_BLOCKING`, `QKD_GET_KEY` and
`QKD_CLOSE` have events too, although no function of the source calls them. -/
inductive Event where
  | printf (format : String) (args : List PrintfArg)
  | qkd_open (destination : ip_address_t) (qos : qos_t) (key_handle : key_handle_t)
      (result : Int) (handle_out : key_handle_t)
  | qkd_connect (key_handle : key_handle_t)
  | qkd_get_key (key_handle : key_handle_t)
  | qkd_close (key_handle : key_handle_t)
deriving DecidableEq, Repr

/-- The outside of the process: the events so far, oldest first, and the
provider's state. -/
structure World (P : Type) where
  trace : List Event
  provider : P

/-- Append one event to the trace. -/
def World.emit {P : Type} (w : World P) (e : Event) : World P :=
  { w with trace := w.trace ++ [e] }

/-- A call either returns a value to its caller or ends the process through
`exit`. -/
inductive Outcome (α : Type) (P : Type) where
  | returned (value : α) (w : World P)
  | exited (status : Int) (w : World P)

/-- The world an outcome leaves. -/
def Outcome.world {α P : Type} : Outcome α P → World P
  | .returned _ w => w
  | .exited _ w => w

/-- Is the event a call of the QKD provider? -/
def Event.isProviderCall : Event → Bool
  | .printf _ _ => false
  | .qkd_open _ _ _ _ _ => true
  | .qkd_connect _ => true
  | .qkd_get_key _ => true
  | .qkd_close _ => true

/-- Is the event a `QKD_OPEN` call? -/
def Event.isOpen : Event → Bool
  | .qkd_open _ _ _ _ _ => true
  | _ => false

/-- Is the event a `QKD_CLOSE` call? -/
def Event.isClose : Event → Bool
  | .qkd_close _ => true
  | _ => false

/-! ## The functions of `example_engine.c` -/

/-- Function `shared_secret_nr_bits`: both branches of the source return 64. -/
def shared_secret_nr_bits (cfg : Config) (_dh : DH) : Int :=
  if cfg.running_on_simulaqron then
    64
  else
    64

/-- Function `fatal`: `printf(format, argptr)` with the `va_list` itself as argument,
then `exit(1)`. -/
def fatal {α P : Type} (format : String) (args : List String) (w : World P) :
    Outcome α P :=
  .exited 1 (w.emit (.printf format [.va_list args]))

/-- Function `report_progress`: print an OK line, or go through `fatal`. -/
def report_progress {P : Type} (what : String) (okay : Bool) (w : World P) :
    Outcome Unit P :=
  if okay then
    .returned () (w.emit (.printf "%s: OK\n" [.str what]))
  else
    fatal "%s: FAILED\n" [what] w

/-- Function `i_am_server`: the source returns `true`. -/
def i_am_server : Bool := true

/-- Function `dh_generate_key`. The value is the `int` returned together with the `DH`
the pointer argument designates after the call. -/
def dh_generate_key {P : Type} (cfg : Config) (api : QkdApi P) (dh : DH)
    (w : World P) : Outcome (Int × DH) P :=
  -- `if (return_fixed_key_for_testing) { }`: the body is empty
  let w := if cfg.return_fixed_key_for_testing then w else w
  if i_am_server then
    let w := w.emit (.printf "dh_generate_key (server)\n" [])
    let key_handle : key_handle_t := List.replicate api.KEY_HANDLE_SIZE 0
    let destination : ip_address_t :=
      { length := 0, address := List.replicate api.IP_ADDR_MAX_LEN 0 }
    let qos : qos_t :=
      { requested_length := 0, max_bps := 0, priority := 0, timeout := 0 }
    let answer := api.QKD_OPEN w.provider destination qos key_handle
    let result := answer.1
    let w : World P :=
      { trace := w.trace ++ [.qkd_open destination qos key_handle result answer.2.1],
        provider := answer.2.2 }
    match report_progress "QKD_OPEN" (decide (api.QKD_RC_SUCCESS = result)) w with
    | .exited status w => .exited status w
    | .returned _ w => .returned (0, dh) w
  else
    let w := w.emit (.printf "dh_generate_key (client)\n" [])
    .returned (0, dh) w

/-- Function `dh_compute_key`: the body is `return -1;`. The value is the `int`
returned, the contents of the `key` buffer after the call, and the `DH`. -/
def dh_compute_key {P : Type} (key : List Nat) (_pub_key : Option BIGNUM) (dh : DH)
    (w : World P) : Outcome (Int × List Nat × DH) P :=
  .returned (-1, key, dh) w

/-- One exchange as the host drives the method table: `generate_key`, then
`compute_key` on the peer's public value. The value is the two `int`s returned,
the `key` buffer and the `DH`. -/
def exchange {P : Type} (cfg : Config) (api : QkdApi P) (dh : DH) (key : List Nat)
    (peer_pub_key : Option BIGNUM) (w : World P) :
    Outcome (Int × Int × List Nat × DH) P :=
  match dh_generate_key cfg api dh w with
  | .exited status w => .exited status w
  | .returned (generated, dh) w =>
    match dh_compute_key key peer_pub_key dh w with
    | .exited status w => .exited status w
    | .returned (computed, key, dh) w => .returned (generated, computed, key, dh) w

/-! ## The one provider call of `dh_generate_key` -/

/-- The destination `dh_generate_key` hands to `QKD_OPEN`. -/
def open_destination {P : Type} (api : QkdApi P) : ip_address_t :=
  { length := 0, address := List.replicate api.IP_ADDR_MAX_LEN 0 }

/-- The QoS record `dh_generate_key` hands to `QKD_OPEN`. -/
def open_qos : qos_t :=
  { requested_length := 0, max_bps := 0, priority := 0, timeout := 0 }

/-- The provider's answer to the `QKD_OPEN` call of `dh_generate_key` in
world `w`. -/
def open_answer {P : Type} (api : QkdApi P) (w : World P) : Int × key_handle_t × P :=
  api.QKD_OPEN w.provider (open_destination api) open_qos
    (List.replicate api.KEY_HANDLE_SIZE 0)

/-- The event of that call. -/
def open_event {P : Type} (api : QkdApi P) (w : World P) : Event :=
  .qkd_open (open_destination api) open_qos (List.replicate api.KEY_HANDLE_SIZE 0)
    (open_answer api w).1 (open_answer api w).2.1

/-- The events `dh_generate_key` adds when `QKD_OPEN` answers with success. -/
def generate_events_ok {P : Type} (api : QkdApi P) (w : World P) : List Event :=
  [.printf "dh_generate_key (server)\n" [], open_event api w,
   .printf "%s: OK\n" [.str "QKD_OPEN"]]

/-- The events `dh_generate_key` adds when `QKD_OPEN` answers with another
code. -/
def generate_events_failed {P : Type} (api : QkdApi P) (w : World P) : List Event :=
  [.printf "dh_generate_key (server)\n" [], open_event api w,
   .printf "%s: FAILED\n" [.va_list ["QKD_OPEN"]]]

/-! ## Fixtures -/

/-- A key handle of 64 octets `0xAA`. -/
def demo_handle : key_handle_t := List.replicate 64 170

/-- A provider without state whose `QKD_OPEN` succeeds (code 0) and fills the
handle with `demo_handle`. -/
def ok_api : QkdApi Unit :=
  { KEY_HANDLE_SIZE := 64, IP_ADDR_MAX_LEN := 16, QKD_RC_SUCCESS := 0,
    QKD_OPEN := fun p _ _ _ => (0, demo_handle, p) }

/-- A provider without state whose `QKD_OPEN` fails with code 3 and leaves the
handle as it was. -/
def failing_api : QkdApi Unit :=
  { KEY_HANDLE_SIZE := 64, IP_ADDR_MAX_LEN := 16, QKD_RC_SUCCESS := 0,
    QKD_OPEN := fun p _ _ h => (3, h, p) }

/-- A `DH` with a prime of 1024 bits and no keys yet. -/
def demo_dh : DH :=
  { p := some (List.replicate 128 255), pub_key := none, priv_key := none }

/-- The world before anything happened. -/
def fresh_world : World Unit := { trace := [], provider := () }

/-! ## Properties the claims speak of -/

/-- Every handle that a successful `QKD_OPEN` of the trace returned is closed
exactly once in the trace. -/
def closed_exactly_once {P : Type} (api : QkdApi P) (t : List Event) : Prop :=
  ∀ d q k h, Event.qkd_open d q k api.QKD_RC_SUCCESS h ∈ t →
    t.count (Event.qkd_close h) = 1

/-- Did the call return to its caller? -/
def Outcome.isReturned {α P : Type} : Outcome α P → Bool
  | .returned _ _ => true
  | .exited _ _ => false

/-! ## What `dh_generate_key` and `exchange` compute -/

theorem dh_generate_key_of_success {P : Type} (cfg : Config) (api : QkdApi P) (dh : DH)
    (w : World P) (h : api.QKD_RC_SUCCESS = (open_answer api w).1) :
    dh_generate_key cfg api dh w =
      .returned (0, dh)
        { trace := w.trace ++ generate_events_ok api w,
          provider := (open_answer api w).2.2 } := by
  simp only [open_answer, open_destination, open_qos] at h
  simp [dh_generate_key, i_am_server, report_progress, World.emit, open_answer,
    open_destination, open_qos, generate_events_ok, open_event, h]

theorem dh_generate_key_of_failure {P : Type} (cfg : Config) (api : QkdApi P) (dh : DH)
    (w : World P) (h : api.QKD_RC_SUCCESS ≠ (open_answer api w).1) :
    dh_generate_key cfg api dh w =
      .exited 1
        { trace := w.trace ++ generate_events_failed api w,
          provider := (open_answer api w).2.2 } := by
  simp only [open_answer, open_destination, open_qos] at h
  simp [dh_generate_key, i_am_server, report_progress, fatal, World.emit, open_answer,
    open_destination, open_qos, generate_events_failed, open_event, h]

theorem exchange_of_success {P : Type} (cfg : Config) (api : QkdApi P) (dh : DH)
    (key : List Nat) (pub : Option BIGNUM) (w : World P)
    (h : api.QKD_RC_SUCCESS = (open_answer api w).1) :
    exchange cfg api dh key pub w =
      .returned (0, -1, key, dh)
        { trace := w.trace ++ generate_events_ok api w,
          provider := (open_answer api w).2.2 } := by
  simp [exchange, dh_generate_key_of_success cfg api dh w h, dh_compute_key]

theorem exchange_of_failure {P : Type} (cfg : Config) (api : QkdApi P) (dh : DH)
    (key : List Nat) (pub : Option BIGNUM) (w : World P)
    (h : api.QKD_RC_SUCCESS ≠ (open_answer api w).1) :
    exchange cfg api dh key pub w =
      .exited 1
        { trace := w.trace ++ generate_events_failed api w,
          provider := (open_answer api w).2.2 } := by
  simp [exchange, dh_generate_key_of_failure cfg api dh w h]

/-- The events `exchange` adds to the trace are those of `dh_generate_key`:
the list for success or the list for failure. -/
theorem exchange_trace {P : Type} (cfg : Config) (api : QkdApi P) (dh : DH)
    (key : List Nat) (pub : Option BIGNUM) (w : World P) :
    (exchange cfg api dh key pub w).world.trace = w.trace ++ generate_events_ok api w ∨
    (exchange cfg api dh key pub w).world.trace = w.trace ++ generate_events_failed api w := by
  by_cases h : api.QKD_RC_SUCCESS = (open_answer api w).1
  · left
    rw [exchange_of_success cfg api dh key pub w h]
    rfl
  · right
    rw [exchange_of_failure cfg api dh key pub w h]
    rfl

/-- The same for `dh_generate_key` alone. -/
theorem dh_generate_key_trace {P : Type} (cfg : Config) (api : QkdApi P) (dh : DH)
    (w : World P) :
    (dh_generate_key cfg api dh w).world.trace = w.trace ++ generate_events_ok api w ∨
    (dh_generate_key cfg api dh w).world.trace = w.trace ++ generate_events_failed api w := by
  by_cases h : api.QKD_RC_SUCCESS = (open_answer api w).1
  · left
    rw [dh_generate_key_of_success cfg api dh w h]
    rfl
  · right
    rw [dh_generate_key_of_failure cfg api dh w h]
    rfl

/-! ## Secret-length policy (C7, C8) -/

/-- Claim C7: with `running_on_simulaqron` set, `shared_secret_nr_bits` returns
64 for the `DH` given, and the same for every other `DH`. -/
theorem shared_secret_nr_bits_simulaqron (cfg : Config) (dh : DH)
    (h : cfg.running_on_simulaqron = true) :
    shared_secret_nr_bits cfg dh = 64 ∧
      ∀ dh2 : DH, shared_secret_nr_bits cfg dh2 = shared_secret_nr_bits cfg dh := by
  simp [shared_secret_nr_bits, h]

theorem shared_secret_nr_bits_simulaqron_witness :
    (Config.mk true true).running_on_simulaqron = true ∧
    (shared_secret_nr_bits (Config.mk true true) demo_dh = 64 ∧
      ∀ dh2 : DH, shared_secret_nr_bits (Config.mk true true) dh2 =
        shared_secret_nr_bits (Config.mk true true) demo_dh) :=
  ⟨rfl, shared_secret_nr_bits_simulaqron (Config.mk true true) demo_dh rfl⟩

/-- Claim C8, evaluated on the code: with `running_on_simulaqron` cleared,
`shared_secret_nr_bits` returns the reduced length 64 for every `DH`, also for
the 1024-bit prime of `demo_dh`, where the production length is 2048; the call
returns a length and signals nothing. -/
theorem shared_secret_nr_bits_production_is_64 :
    (∀ (fixed : Bool) (dh : DH), shared_secret_nr_bits (Config.mk fixed false) dh = 64) ∧
    shared_secret_nr_bits Config.initial demo_dh = 64 ∧
    shared_secret_nr_bits Config.initial demo_dh ≠ 2048 := by
  refine ⟨?_, ?_, ?_⟩
  · intro fixed dh
    simp [shared_secret_nr_bits]
  · simp [shared_secret_nr_bits]
  · simp [shared_secret_nr_bits]

/-! ## Role (C10) -/

/-- Claim C10: `i_am_server` answers `true`, and in every world and for every
configuration, provider and `DH`, the events `dh_generate_key` adds begin with
the line of the server branch, contain the one `QKD_OPEN` call of that branch,
and do not contain the line of the client branch. -/
theorem dh_generate_key_runs_server_branch :
    i_am_server = true ∧
    ∀ {P : Type} (cfg : Config) (api : QkdApi P) (dh : DH) (w : World P),
      ∃ rest : List Event,
        (dh_generate_key cfg api dh w).world.trace =
          w.trace ++ Event.printf "dh_generate_key (server)\n" [] :: rest ∧
        (rest.filter Event.isOpen).length = 1 ∧
        Event.printf "dh_generate_key (client)\n" [] ∉ rest := by
  refine ⟨rfl, ?_⟩
  intro P cfg api dh w
  rcases dh_generate_key_trace cfg api dh w with h | h
  · refine ⟨[open_event api w, .printf "%s: OK\n" [.str "QKD_OPEN"]], ?_, ?_, ?_⟩
    · rw [h]; rfl
    · simp [open_event, Event.isOpen]
    · simp [open_event]
  · refine ⟨[open_event api w, .printf "%s: FAILED\n" [.va_list ["QKD_OPEN"]]], ?_, ?_, ?_⟩
    · rw [h]; rfl
    · simp [open_event, Event.isOpen]
    · simp [open_event]

/-! ## dh_compute_key (C1, C2) -/

/-- Claim C1, evaluated on the code: `dh_compute_key` returns -1 on every
input, leaves the `key` buffer and the world as they were, and so an exchange
against a provider whose `QKD_OPEN` succeeds ends with -1 from `dh_compute_key`
and the buffer untouched: no secret of 8 octets is written on either side. -/
theorem dh_compute_key_never_succeeds :
    (∀ {P : Type} (key : List Nat) (pub : Option BIGNUM) (dh : DH) (w : World P),
      dh_compute_key key pub dh w = .returned (-1, key, dh) w) ∧
    (∀ (cfg : Config) (dh : DH) (key : List Nat) (pub : Option BIGNUM),
      exchange cfg ok_api dh key pub fresh_world =
        .returned (0, -1, key, dh)
          { trace := generate_events_ok ok_api fresh_world, provider := () }) ∧
    shared_secret_nr_bits Config.initial demo_dh / 8 = 8 := by
  refine ⟨?_, ?_, ?_⟩
  · intro P key pub dh w
    rfl
  · intro cfg dh key pub
    rw [exchange_of_success cfg ok_api dh key pub fresh_world rfl]
    rfl
  · simp [shared_secret_nr_bits]

/-- Claim C2: let the Initiator's `dh_generate_key` have returned, so that the
handle it issued is the one `QKD_OPEN` answered with. When the peer's public
value differs from that handle, `dh_compute_key` returns -1, the failure value
of a `compute_key` method, and the `key` buffer, the `DH` and the world after
the call are those before it. -/
theorem dh_compute_key_handle_mismatch {P : Type} (cfg : Config) (api : QkdApi P)
    (dh0 : DH) (w0 : World P) (generated : Int) (dh : DH) (w : World P)
    (key : List Nat) (pub : Option BIGNUM)
    (hissued : dh_generate_key cfg api dh0 w0 = .returned (generated, dh) w)
    (_hne : pub ≠ some (open_answer api w0).2.1) :
    dh_compute_key key pub dh w = .returned (-1, key, dh) w ∧
      (exchange cfg api dh0 key pub w0).isReturned = true ∧
      exchange cfg api dh0 key pub w0 = .returned (generated, -1, key, dh) w := by
  refine ⟨rfl, ?_, ?_⟩
  · simp [exchange, hissued, dh_compute_key, Outcome.isReturned]
  · simp [exchange, hissued, dh_compute_key]

theorem dh_compute_key_handle_mismatch_witness :
    dh_generate_key Config.initial ok_api demo_dh fresh_world =
        .returned (0, demo_dh)
          (World.mk (fresh_world.trace ++ generate_events_ok ok_api fresh_world) ()) ∧
    some [1, 2, 3] ≠ some (open_answer ok_api fresh_world).2.1 ∧
    (dh_compute_key (List.replicate 8 0) (some [1, 2, 3]) demo_dh
        (World.mk (fresh_world.trace ++ generate_events_ok ok_api fresh_world) ()) =
      .returned (-1, List.replicate 8 0, demo_dh)
        (World.mk (fresh_world.trace ++ generate_events_ok ok_api fresh_world) ()) ∧
      (exchange Config.initial ok_api demo_dh (List.replicate 8 0) (some [1, 2, 3])
        fresh_world).isReturned = true ∧
      exchange Config.initial ok_api demo_dh (List.replicate 8 0) (some [1, 2, 3])
          fresh_world =
        .returned (0, -1, List.replicate 8 0, demo_dh)
          (World.mk (fresh_world.trace ++ generate_events_ok ok_api fresh_world) ())) :=
  have hgen : dh_generate_key Config.initial ok_api demo_dh fresh_world =
      .returned (0, demo_dh)
        (World.mk (fresh_world.trace ++ generate_events_ok ok_api fresh_world) ()) :=
    dh_generate_key_of_success Config.initial ok_api demo_dh fresh_world rfl
  have hne : some [1, 2, 3] ≠ some (open_answer ok_api fresh_world).2.1 := by
    simp [open_answer, ok_api, demo_handle, List.replicate]
  ⟨hgen, hne,
    dh_compute_key_handle_mismatch Config.initial ok_api demo_dh fresh_world 0 demo_dh
      (World.mk (fresh_world.trace ++ generate_events_ok ok_api fresh_world) ())
      (List.replicate 8 0) (some [1, 2, 3]) hgen hne⟩

/-! ## dh_generate_key and the provider (C5, C6, C9) -/

/-- Claim C5 as stated fails: against the provider whose `QKD_OPEN` answers
with code 3, `dh_generate_key` does not return to its caller at all, whatever
value and world one names. -/
theorem dh_generate_key_open_failure_does_not_return :
    ¬ ∃ (v : Int × DH) (w : World Unit),
      dh_generate_key Config.initial failing_api demo_dh fresh_world = .returned v w := by
  rw [dh_generate_key_of_failure Config.initial failing_api demo_dh fresh_world (by decide)]
  rintro ⟨v, w, h⟩
  cases h

/-- Claim C5, amended: for every result code of `QKD_OPEN` other than
`QKD_RC_SUCCESS`, `dh_generate_key` does not return: it ends the process with
exit status 1, whatever the code was, after the server line, the `QKD_OPEN`
call and the FAILED line of `fatal`; no value and no `DH` reach the caller. -/
theorem dh_generate_key_open_failure_exits {P : Type} (cfg : Config) (api : QkdApi P)
    (dh : DH) (w : World P) (h : (open_answer api w).1 ≠ api.QKD_RC_SUCCESS) :
    dh_generate_key cfg api dh w =
        .exited 1
          { trace := w.trace ++ generate_events_failed api w,
            provider := (open_answer api w).2.2 } ∧
      (dh_generate_key cfg api dh w).isReturned = false := by
  have h2 : api.QKD_RC_SUCCESS ≠ (open_answer api w).1 := fun e => h e.symm
  rw [dh_generate_key_of_failure cfg api dh w h2]
  exact ⟨rfl, rfl⟩

theorem dh_generate_key_open_failure_exits_witness :
    (open_answer failing_api fresh_world).1 ≠ failing_api.QKD_RC_SUCCESS ∧
    (dh_generate_key Config.initial failing_api demo_dh fresh_world =
        .exited 1
          { trace := fresh_world.trace ++ generate_events_failed failing_api fresh_world,
            provider := (open_answer failing_api fresh_world).2.2 } ∧
      (dh_generate_key Config.initial failing_api demo_dh fresh_world).isReturned = false) :=
  ⟨by decide,
    dh_generate_key_open_failure_exits Config.initial failing_api demo_dh fresh_world
      (by decide)⟩

/-- Claim C6, evaluated on the code: against the provider whose `QKD_OPEN`
succeeds and returns `demo_handle`, `dh_generate_key` makes the one call with
the all-zero handle, but returns 0, the failure value of a `generate_key`
method, and hands back the `DH` it was given: the public-value slot of
`demo_dh` is still empty and is not `demo_handle`. -/
theorem dh_generate_key_leaves_pub_key_unset :
    (∀ (cfg : Config) (dh : DH),
      dh_generate_key cfg ok_api dh fresh_world =
        .returned (0, dh)
          { trace :=
              [.printf "dh_generate_key (server)\n" [],
               .qkd_open (open_destination ok_api) open_qos (List.replicate 64 0) 0
                 demo_handle,
               .printf "%s: OK\n" [.str "QKD_OPEN"]],
            provider := () }) ∧
    demo_dh.pub_key = none ∧
    demo_dh.pub_key ≠ some demo_handle := by
  refine ⟨?_, rfl, ?_⟩
  · intro cfg dh
    rw [dh_generate_key_of_success cfg ok_api dh fresh_world rfl]
    rfl
  · simp [demo_dh]

/-- Claim C9, evaluated on the code: in every world and for every
configuration, provider and `DH`, the one `QKD_OPEN` call of `dh_generate_key`
carries a QoS record whose `requested_length` is 0, while
`shared_secret_nr_bits` of that `DH` is 64. -/
theorem dh_generate_key_requests_length_zero :
    ∀ {P : Type} (cfg : Config) (api : QkdApi P) (dh : DH) (w : World P),
      ∃ (added : List Event) (d : ip_address_t) (q : qos_t) (k : key_handle_t)
          (rc : Int) (h : key_handle_t),
        (dh_generate_key cfg api dh w).world.trace = w.trace ++ added ∧
        added.filter Event.isOpen = [Event.qkd_open d q k rc h] ∧
        q.requested_length = 0 ∧
        shared_secret_nr_bits cfg dh = 64 ∧
        (q.requested_length : Int) ≠ shared_secret_nr_bits cfg dh := by
  intro P cfg api dh w
  have hbits : shared_secret_nr_bits cfg dh = 64 := by simp [shared_secret_nr_bits]
  rcases dh_generate_key_trace cfg api dh w with h | h
  · refine ⟨generate_events_ok api w, open_destination api, open_qos,
      List.replicate api.KEY_HANDLE_SIZE 0, (open_answer api w).1, (open_answer api w).2.1,
      h, ?_, rfl, hbits, ?_⟩
    · simp [generate_events_ok, open_event, Event.isOpen]
    · rw [hbits]; simp [open_qos]
  · refine ⟨generate_events_failed api w, open_destination api, open_qos,
      List.replicate api.KEY_HANDLE_SIZE 0, (open_answer api w).1, (open_answer api w).2.1,
      h, ?_, rfl, hbits, ?_⟩
    · simp [generate_events_failed, open_event, Event.isOpen]
    · rw [hbits]; simp [open_qos]

/-! ## The provider calls of one exchange (C3, C4) -/

/-- Claim C3 as stated fails: in the exchange against the provider whose
`QKD_OPEN` succeeds, the handle opened is not closed exactly once. -/
theorem exchange_does_not_close_handle :
    ¬ closed_exactly_once ok_api
      (exchange Config.initial ok_api demo_dh (List.replicate 8 0) (some demo_handle)
        fresh_world).world.trace := by
  rw [exchange_of_success Config.initial ok_api demo_dh (List.replicate 8 0)
    (some demo_handle) fresh_world rfl]
  intro hall
  have hcount := hall (open_destination ok_api) open_qos (List.replicate 64 0) demo_handle
    (by simp [Outcome.world, fresh_world, generate_events_ok, open_event, open_answer, ok_api])
  simp [Outcome.world, fresh_world, generate_events_ok, open_event, List.count_cons] at hcount

/-- Claim C3, amended: in every world and for every configuration, provider,
`DH`, buffer and peer value, the events one exchange adds to the trace contain
exactly one `QKD_OPEN` call and no `QKD_CLOSE` call, whether the exchange
returns or ends the process: the exchange never closes the handle it opened. -/
theorem exchange_opens_once_and_never_closes :
    ∀ {P : Type} (cfg : Config) (api : QkdApi P) (dh : DH) (key : List Nat)
        (pub : Option BIGNUM) (w : World P),
      ∃ added : List Event,
        (exchange cfg api dh key pub w).world.trace = w.trace ++ added ∧
        (added.filter Event.isOpen).length = 1 ∧
        added.filter Event.isClose = [] := by
  intro P cfg api dh key pub w
  rcases exchange_trace cfg api dh key pub w with h | h
  · refine ⟨generate_events_ok api w, h, ?_, ?_⟩
    · simp [generate_events_ok, open_event, Event.isOpen]
    · simp [generate_events_ok, open_event, Event.isClose]
  · refine ⟨generate_events_failed api w, h, ?_, ?_⟩
    · simp [generate_events_failed, open_event, Event.isOpen]
    · simp [generate_events_failed, open_event, Event.isClose]

/-- Claim C4, evaluated on the code: with `return_fixed_key_for_testing` set,
the events one exchange adds still contain exactly one provider call; the
exchange returns when the provider's `QKD_OPEN` succeeds and ends the process
when it fails, so its result depends on the provider's answer; and where it
returns, `dh_compute_key` gave -1 and the `key` buffer holds no secret. -/
theorem exchange_fixed_key_still_calls_provider :
    (∀ {P : Type} (sim : Bool) (api : QkdApi P) (dh : DH) (key : List Nat)
        (pub : Option BIGNUM) (w : World P),
      ∃ added : List Event,
        (exchange (Config.mk true sim) api dh key pub w).world.trace = w.trace ++ added ∧
        (added.filter Event.isProviderCall).length = 1) ∧
    (exchange Config.initial ok_api demo_dh (List.replicate 8 0) (some demo_handle)
        fresh_world).isReturned = true ∧
    (exchange Config.initial failing_api demo_dh (List.replicate 8 0) (some demo_handle)
        fresh_world).isReturned = false ∧
    exchange Config.initial ok_api demo_dh (List.replicate 8 0) (some demo_handle)
        fresh_world =
      .returned (0, -1, List.replicate 8 0, demo_dh)
        { trace := generate_events_ok ok_api fresh_world, provider := () } := by
  refine ⟨?_, ?_, ?_, ?_⟩
  · intro P sim api dh key pub w
    rcases exchange_trace (Config.mk true sim) api dh key pub w with h | h
    · refine ⟨generate_events_ok api w, h, ?_⟩
      simp [generate_events_ok, open_event, Event.isProviderCall]
    · refine ⟨generate_events_failed api w, h, ?_⟩
      simp [generate_events_failed, open_event, Event.isProviderCall]
  · rw [exchange_of_success Config.initial ok_api demo_dh _ _ fresh_world rfl]
    rfl
  · rw [exchange_of_failure Config.initial failing_api demo_dh _ _ fresh_world (by decide)]
    rfl
  · rw [exchange_of_success Config.initial ok_api demo_dh _ _ fresh_world rfl]
    rfl

end ExampleEngine
